import Mathlib

/-!
# The gRPC prober of blackbox_exporter (`prober/grpc.go`)

A shallow embedding of `ProbeGRPC`.  The function talks to four collaborators
(the dialer, the reflection client, the dynamic stub and the metrics gauge);
their answers are collected in a `World`, and every call the function makes is
recorded, in program order, in a trace of `Event`s.  The function either
returns a boolean or leaves through a Go `panic`; both ends are values of
`Outcome`.
-/

namespace Prober

/-! ## Descriptor values -/

/-- One RPC operation of a service (`desc.MethodDescriptor`): its name and the
names of its input and output message shapes. -/
structure MethodDescriptor where
  name : String
  inputType : String
  outputType : String
deriving DecidableEq, Repr

/-- One message type of a schema file (`desc.MessageDescriptor`): its name and
its field names. -/
structure MessageDescriptor where
  name : String
  fields : List String
deriving DecidableEq, Repr

/-- A service (`desc.ServiceDescriptor`) with its ordered method list
(`GetMethods`). -/
structure ServiceDescriptor where
  name : String
  methods : List MethodDescriptor
deriving DecidableEq, Repr

/-- A schema file (`desc.FileDescriptor`) with its declared message types
(`GetMessageTypes`). -/
structure FileDescriptor where
  name : String
  messageTypes : List MessageDescriptor
deriving DecidableEq, Repr

/-- A message built at run time from a descriptor (`dynamic.Message`): the
descriptor and the fields that have been populated. -/
structure DynamicMessage where
  desc : MessageDescriptor
  values : List (String × String)
deriving DecidableEq, Repr

/-- The message `msg.NewMessage(messageDesc)` of line 88: an instance of the
descriptor with no field populated. -/
def NewMessage (messageDesc : MessageDescriptor) : DynamicMessage :=
  { desc := messageDesc, values := [] }

/-- The response of the unary call; `String` is its textual form
(`s.String()`). -/
structure Response where
  String : String
deriving DecidableEq, Repr

/-- An open client connection (`*grpc.ClientConn`), identified by the target it
was dialled to and a serial number. -/
structure ClientConn where
  target : String
  serial : Nat
deriving DecidableEq, Repr

/-! ## Configuration -/

/-- The fields of `module.GRPC` that `ProbeGRPC` reads. -/
structure GRPCProbe where
  Service : String
  Method : String
  MessageType : String
  ResponseMessage : String
  InsecureSkipVerify : Bool
deriving DecidableEq, Repr

/-- The part of `config.Module` that `ProbeGRPC` reads. -/
structure Module where
  GRPC : GRPCProbe
deriving DecidableEq, Repr

/-! ## Collaborators -/

/-- The answers of the collaborators.  Every call of the source that yields an
`error` value has both results here; calls that yield no `error`
(`MustRegister`, `NewClient`, `NewMessage`, `NewStub`, `Set`, the logger) are
effects that complete.

`nilGetMethodsFaults` says what `GetMethods` does on a nil
`*desc.ServiceDescriptor`: `true` when the getter reads the receiver's field
and so faults with a nil pointer dereference (the getter of
`jhump/protoreflect` is `return sd.methods`), `false` for a getter that
tolerates nil and yields the empty list. -/
structure World where
  DialContext : String → Bool → Except String ClientConn
  FileContainingSymbol : ClientConn → String → Except String FileDescriptor
  ResolveService : ClientConn → String → Except String ServiceDescriptor
  InvokeRpc : ClientConn → MethodDescriptor → DynamicMessage → Except String Response
  nilGetMethodsFaults : Bool

/-- Severity of a log entry (`level.Error`, `level.Info`). -/
inductive Level where
  | error
  | info
deriving DecidableEq, Repr

/-- The calls `ProbeGRPC` can make on its collaborators.  `connOpened` marks
the connection handed out by a dial that succeeded; `connClose` is
`conn.Close()`; `gaugeSet` is `Set` on the gauge, whose only argument in the
source is the constant 1, kept here as a natural number. -/
inductive Event where
  | newGauge (name : String)
  | mustRegister (name : String)
  | dialContext (target : String) (insecureSkipVerify : Bool)
  | connOpened (conn : ClientConn)
  | connClose (conn : ClientConn)
  | fileContainingSymbol (conn : ClientConn) (symbol : String)
  | resolveService (conn : ClientConn) (service : String)
  | newMessage (messageDesc : MessageDescriptor)
  | invokeRpc (conn : ClientConn) (methodDesc : MethodDescriptor) (message : DynamicMessage)
  | gaugeSet (name : String) (value : Nat)
  | log (lvl : Level) (msg : String) (err : Option String)
deriving DecidableEq, Repr

/-- How a call of `ProbeGRPC` ends: with `return b`, or with a Go panic that
unwinds out of the function. -/
inductive Outcome where
  | returned (b : Bool)
  | panicked (err : String)
deriving DecidableEq, Repr

/-- A finished call: how it ended and what it did on the way. -/
structure Run where
  outcome : Outcome
  trace : List Event
deriving DecidableEq, Repr

/-- Name of the gauge created on lines 36-39. -/
def gaugeName : String := "grpc_probe_success"

/-- The panic value of a nil pointer dereference. -/
def nilDereference : String :=
  "runtime error: invalid memory address or nil pointer dereference"

/-- The call `svc.GetMethods()` of line 66 on a possibly nil pointer. -/
def GetMethods (w : World) : Option ServiceDescriptor → Except String (List MethodDescriptor)
  | some svc => .ok svc.methods
  | none => if w.nilGetMethodsFaults then .error nilDereference else .ok []

/-- The loops of lines 65-70 and 78-83: the variable starts as nil, the
sequence is walked from front to back, and every entry whose name equals the
requested name is assigned to the variable; there is no `break`. -/
def scanNamed {α : Type} (getName : α → String) (xs : List α) (name : String) : Option α :=
  xs.foldl (fun found m => if getName m = name then some m else found) none

/-- The pointer `svc` after line 64: the `err` of `ResolveService` is not
looked at, and `svc` is nil when the call failed. -/
def resolved (r : Except String ServiceDescriptor) : Option ServiceDescriptor :=
  match r with
  | .ok svc => some svc
  | .error _ => none

/-- The calls of lines 36-48: the gauge is created and registered, then the
target is dialled. -/
def callsToDial (target : String) (module : Module) : List Event :=
  [.newGauge gaugeName, .mustRegister gaugeName,
   .dialContext target module.GRPC.InsecureSkipVerify]

/-- The calls up to line 57: the dial handed out `conn`, and the file that
holds the symbol `Service` is asked for. -/
def callsToFile (target : String) (module : Module) (conn : ClientConn) : List Event :=
  callsToDial target module ++
    [.connOpened conn, .fileContainingSymbol conn module.GRPC.Service]

/-- The calls up to line 64: the service `Service` is asked for. -/
def callsToResolve (target : String) (module : Module) (conn : ClientConn) : List Event :=
  callsToFile target module conn ++ [.resolveService conn module.GRPC.Service]

/-- The calls up to line 93: the request message is built and the unary call is
made. -/
def callsToInvoke (target : String) (module : Module) (conn : ClientConn)
    (methodDesc : MethodDescriptor) (messageDesc : MessageDescriptor) : List Event :=
  callsToResolve target module conn ++
    [.newMessage messageDesc, .invokeRpc conn methodDesc (NewMessage messageDesc)]

/-- The function `ProbeGRPC` of `prober/grpc.go`, lines 34-105. -/
def ProbeGRPC (w : World) (target : String) (module : Module) : Run :=
  match w.DialContext target module.GRPC.InsecureSkipVerify with
  | .error err =>
    ⟨.returned false,
     callsToDial target module ++
       [.log .error "Failed to craete GRCP connection" (some err)]⟩
  | .ok conn =>
    match w.FileContainingSymbol conn module.GRPC.Service with
    | .error err =>
      ⟨.returned false,
       callsToFile target module conn ++
         [.log .info "Failed to get GRPC File Descriptor" (some err)]⟩
    | .ok fileDesc =>
      let svc := resolved (w.ResolveService conn module.GRPC.Service)
      match GetMethods w svc with
      | .error fault => ⟨.panicked fault, callsToResolve target module conn⟩
      | .ok methods =>
        match scanNamed MethodDescriptor.name methods module.GRPC.Method with
        | none =>
          ⟨.returned false,
           callsToResolve target module conn ++
             [.log .info ("Method " ++ module.GRPC.Method ++ " is not found") none]⟩
        | some methodDesc =>
          match scanNamed MessageDescriptor.name fileDesc.messageTypes
              module.GRPC.MessageType with
          | none =>
            ⟨.returned false,
             callsToResolve target module conn ++
               [.log .info
                 ("Message Descriptor " ++ module.GRPC.MessageType ++ " is not found") none]⟩
          | some messageDesc =>
            match w.InvokeRpc conn methodDesc (NewMessage messageDesc) with
            | .error err =>
              ⟨.panicked err, callsToInvoke target module conn methodDesc messageDesc⟩
            | .ok s =>
              if module.GRPC.ResponseMessage ≠ "" ∧ module.GRPC.ResponseMessage ≠ s.String then
                ⟨.returned false,
                 callsToInvoke target module conn methodDesc messageDesc ++
                   [.log .info
                     ("Response message " ++ s.String ++ " != " ++ module.GRPC.ResponseMessage)
                     none]⟩
              else
                ⟨.returned true,
                 callsToInvoke target module conn methodDesc messageDesc ++
                   [.gaugeSet gaugeName 1]⟩

/-! ## Reading a trace -/

/-- The value of the gauge after a trace: zero when created, then the value of
the latest `Set`. -/
def gaugeValue (trace : List Event) : Nat :=
  trace.foldl (fun v e => match e with
    | .gaugeSet _ x => x
    | _ => v) 0

/-- Whether the trace writes the gauge at all. -/
def gaugeWritten (trace : List Event) : Bool :=
  trace.any (fun e => match e with
    | .gaugeSet _ _ => true
    | _ => false)

/-- Whether the connection is open after a trace: opened by `connOpened`,
released by `connClose`. -/
def connOpen (conn : ClientConn) (trace : List Event) : Bool :=
  trace.foldl (fun o e => match e with
    | .connOpened c => if c = conn then true else o
    | .connClose c => if c = conn then false else o
    | _ => o) false

/-- Whether the trace holds a unary invocation. -/
def invoked (trace : List Event) : Bool :=
  trace.any (fun e => match e with
    | .invokeRpc _ _ _ => true
    | _ => false)

/-- Whether the trace builds a request message. -/
def messageBuilt (trace : List Event) : Bool :=
  trace.any (fun e => match e with
    | .newMessage _ => true
    | _ => false)

/-! ## Sample collaborators -/

/-- The health-check request type. -/
def healthCheckRequest : MessageDescriptor :=
  { name := "HealthCheckRequest", fields := ["service"] }

/-- The health-check response type. -/
def healthCheckResponse : MessageDescriptor :=
  { name := "HealthCheckResponse", fields := ["status"] }

/-- The method `Check` of the health service. -/
def checkMethod : MethodDescriptor :=
  { name := "Check", inputType := "HealthCheckRequest", outputType := "HealthCheckResponse" }

/-- The method `Watch` of the health service. -/
def watchMethod : MethodDescriptor :=
  { name := "Watch", inputType := "HealthCheckRequest", outputType := "HealthCheckResponse" }

/-- The health service. -/
def healthService : ServiceDescriptor :=
  { name := "grpc.health.v1.Health", methods := [checkMethod, watchMethod] }

/-- The schema file of the health service. -/
def healthFile : FileDescriptor :=
  { name := "grpc/health/v1/health.proto",
    messageTypes := [healthCheckRequest, healthCheckResponse] }

/-- A healthy target: everything succeeds for the health service, and a symbol
that is no service resolves to a file but not to a service. -/
def healthyWorld : World :=
  { DialContext := fun target _ => .ok { target := target, serial := 1 }
    FileContainingSymbol := fun _ symbol =>
      if symbol = "grpc.health.v1.Health" ∨ symbol = "grpc.health.v1.HealthCheckRequest"
      then .ok healthFile else .error "Symbol not found"
    ResolveService := fun _ service =>
      if service = "grpc.health.v1.Health" then .ok healthService
      else .error "Service not found"
    InvokeRpc := fun _ _ _ => .ok { String := "status:SERVING" }
    nilGetMethodsFaults := true }

/-- A target that resolves everything but fails the unary call. -/
def failingWorld : World :=
  { healthyWorld with InvokeRpc := fun _ _ _ => .error "rpc error: code = Unavailable" }

/-- The probe of the health service, accepting any response. -/
def healthModule : Module :=
  { GRPC := { Service := "grpc.health.v1.Health", Method := "Check",
              MessageType := "HealthCheckRequest", ResponseMessage := "",
              InsecureSkipVerify := false } }

/-- A service that advertises two methods named `Check`. -/
def twinService : ServiceDescriptor :=
  { name := "grpc.health.v1.Health",
    methods := [checkMethod,
                { name := "Check", inputType := "ProbeRequest", outputType := "ProbeResponse" }] }

/-- A file that declares two message types named `HealthCheckRequest`. -/
def twinFile : FileDescriptor :=
  { name := "grpc/health/v1/health.proto",
    messageTypes := [healthCheckRequest,
                     { name := "HealthCheckRequest", fields := ["service", "zone"] }] }

/-- A target whose service and file hold the duplicated names. -/
def twinWorld : World :=
  { healthyWorld with
    FileContainingSymbol := fun _ _ => .ok twinFile
    ResolveService := fun _ _ => .ok twinService }

/-! ## The exit paths of `ProbeGRPC`

One constructor for each way through the function body: the answers of the
collaborators that lead there, and the run that results. -/

/-- The exit paths of `ProbeGRPC`, one for each `return` and each panic. -/
inductive ExitPath (w : World) (target : String) (module : Module) : Run → Prop where
  | dialFailed (err : String)
      (hd : w.DialContext target module.GRPC.InsecureSkipVerify = .error err) :
      ExitPath w target module
        ⟨.returned false,
         callsToDial target module ++
           [.log .error "Failed to craete GRCP connection" (some err)]⟩
  | fileFailed (conn : ClientConn) (err : String)
      (hd : w.DialContext target module.GRPC.InsecureSkipVerify = .ok conn)
      (hf : w.FileContainingSymbol conn module.GRPC.Service = .error err) :
      ExitPath w target module
        ⟨.returned false,
         callsToFile target module conn ++
           [.log .info "Failed to get GRPC File Descriptor" (some err)]⟩
  | nilService (conn : ClientConn) (fileDesc : FileDescriptor) (err : String)
      (hd : w.DialContext target module.GRPC.InsecureSkipVerify = .ok conn)
      (hf : w.FileContainingSymbol conn module.GRPC.Service = .ok fileDesc)
      (hs : w.ResolveService conn module.GRPC.Service = .error err)
      (hn : w.nilGetMethodsFaults = true) :
      ExitPath w target module
        ⟨.panicked nilDereference, callsToResolve target module conn⟩
  | nilTolerated (conn : ClientConn) (fileDesc : FileDescriptor) (err : String)
      (hd : w.DialContext target module.GRPC.InsecureSkipVerify = .ok conn)
      (hf : w.FileContainingSymbol conn module.GRPC.Service = .ok fileDesc)
      (hs : w.ResolveService conn module.GRPC.Service = .error err)
      (hn : w.nilGetMethodsFaults = false) :
      ExitPath w target module
        ⟨.returned false,
         callsToResolve target module conn ++
           [.log .info ("Method " ++ module.GRPC.Method ++ " is not found") none]⟩
  | methodMissing (conn : ClientConn) (fileDesc : FileDescriptor) (svc : ServiceDescriptor)
      (hd : w.DialContext target module.GRPC.InsecureSkipVerify = .ok conn)
      (hf : w.FileContainingSymbol conn module.GRPC.Service = .ok fileDesc)
      (hs : w.ResolveService conn module.GRPC.Service = .ok svc)
      (hm : scanNamed MethodDescriptor.name svc.methods module.GRPC.Method = none) :
      ExitPath w target module
        ⟨.returned false,
         callsToResolve target module conn ++
           [.log .info ("Method " ++ module.GRPC.Method ++ " is not found") none]⟩
  | messageMissing (conn : ClientConn) (fileDesc : FileDescriptor) (svc : ServiceDescriptor)
      (methodDesc : MethodDescriptor)
      (hd : w.DialContext target module.GRPC.InsecureSkipVerify = .ok conn)
      (hf : w.FileContainingSymbol conn module.GRPC.Service = .ok fileDesc)
      (hs : w.ResolveService conn module.GRPC.Service = .ok svc)
      (hm : scanNamed MethodDescriptor.name svc.methods module.GRPC.Method = some methodDesc)
      (ht : scanNamed MessageDescriptor.name fileDesc.messageTypes module.GRPC.MessageType
              = none) :
      ExitPath w target module
        ⟨.returned false,
         callsToResolve target module conn ++
           [.log .info
             ("Message Descriptor " ++ module.GRPC.MessageType ++ " is not found") none]⟩
  | invokeFailed (conn : ClientConn) (fileDesc : FileDescriptor) (svc : ServiceDescriptor)
      (methodDesc : MethodDescriptor) (messageDesc : MessageDescriptor) (err : String)
      (hd : w.DialContext target module.GRPC.InsecureSkipVerify = .ok conn)
      (hf : w.FileContainingSymbol conn module.GRPC.Service = .ok fileDesc)
      (hs : w.ResolveService conn module.GRPC.Service = .ok svc)
      (hm : scanNamed MethodDescriptor.name svc.methods module.GRPC.Method = some methodDesc)
      (ht : scanNamed MessageDescriptor.name fileDesc.messageTypes module.GRPC.MessageType
              = some messageDesc)
      (hi : w.InvokeRpc conn methodDesc (NewMessage messageDesc) = .error err) :
      ExitPath w target module
        ⟨.panicked err, callsToInvoke target module conn methodDesc messageDesc⟩
  | responseDiffers (conn : ClientConn) (fileDesc : FileDescriptor) (svc : ServiceDescriptor)
      (methodDesc : MethodDescriptor) (messageDesc : MessageDescriptor) (s : Response)
      (hd : w.DialContext target module.GRPC.InsecureSkipVerify = .ok conn)
      (hf : w.FileContainingSymbol conn module.GRPC.Service = .ok fileDesc)
      (hs : w.ResolveService conn module.GRPC.Service = .ok svc)
      (hm : scanNamed MethodDescriptor.name svc.methods module.GRPC.Method = some methodDesc)
      (ht : scanNamed MessageDescriptor.name fileDesc.messageTypes module.GRPC.MessageType
              = some messageDesc)
      (hi : w.InvokeRpc conn methodDesc (NewMessage messageDesc) = .ok s)
      (hr : module.GRPC.ResponseMessage ≠ "" ∧ module.GRPC.ResponseMessage ≠ s.String) :
      ExitPath w target module
        ⟨.returned false,
         callsToInvoke target module conn methodDesc messageDesc ++
           [.log .info
             ("Response message " ++ s.String ++ " != " ++ module.GRPC.ResponseMessage)
             none]⟩
  | success (conn : ClientConn) (fileDesc : FileDescriptor) (svc : ServiceDescriptor)
      (methodDesc : MethodDescriptor) (messageDesc : MessageDescriptor) (s : Response)
      (hd : w.DialContext target module.GRPC.InsecureSkipVerify = .ok conn)
      (hf : w.FileContainingSymbol conn module.GRPC.Service = .ok fileDesc)
      (hs : w.ResolveService conn module.GRPC.Service = .ok svc)
      (hm : scanNamed MethodDescriptor.name svc.methods module.GRPC.Method = some methodDesc)
      (ht : scanNamed MessageDescriptor.name fileDesc.messageTypes module.GRPC.MessageType
              = some messageDesc)
      (hi : w.InvokeRpc conn methodDesc (NewMessage messageDesc) = .ok s)
      (hr : module.GRPC.ResponseMessage = "" ∨ module.GRPC.ResponseMessage = s.String) :
      ExitPath w target module
        ⟨.returned true,
         callsToInvoke target module conn methodDesc messageDesc ++
           [.gaugeSet gaugeName 1]⟩

/-! ## The name scan -/

/-- The scan started from any value of the variable: the last entry with the
name if there is one, the starting value otherwise. -/
theorem foldl_scan_eq {α : Type} (getName : α → String) (name : String) (xs : List α)
    (init : Option α) :
    xs.foldl (fun found m => if getName m = name then some m else found) init =
      (xs.reverse.find? (fun m => decide (getName m = name))).or init := by
  induction xs generalizing init with
  | nil => simp
  | cons x xs ih =>
    rw [List.foldl_cons, ih, List.reverse_cons, List.find?_append]
    by_cases hx : getName x = name
    · cases hr : xs.reverse.find? (fun m => decide (getName m = name)) <;> simp [hx, List.find?]
    · cases hr : xs.reverse.find? (fun m => decide (getName m = name)) <;> simp [hx, List.find?]

/-- The scan yields the first match of the reversed sequence. -/
theorem scanNamed_eq_find_reverse {α : Type} (getName : α → String) (xs : List α)
    (name : String) :
    scanNamed getName xs name = xs.reverse.find? (fun m => decide (getName m = name)) := by
  unfold scanNamed
  rw [foldl_scan_eq]
  simp

/-- The scan leaves the variable nil exactly when no entry has the name. -/
theorem scanNamed_eq_none_iff {α : Type} (getName : α → String) (xs : List α) (name : String) :
    scanNamed getName xs name = none ↔ ∀ m ∈ xs, getName m ≠ name := by
  rw [scanNamed_eq_find_reverse, List.find?_eq_none]
  simp

/-- What the scan selects is an entry of the sequence and has the name. -/
theorem scanNamed_some_mem {α : Type} (getName : α → String) (xs : List α) (name : String)
    (m : α) (h : scanNamed getName xs name = some m) : m ∈ xs ∧ getName m = name := by
  rw [scanNamed_eq_find_reverse] at h
  refine ⟨?_, ?_⟩
  · have := List.mem_of_find?_eq_some h
    simpa using this
  · have := List.find?_some h
    simpa using this

/-- The scan selects something exactly when some entry has the name. -/
theorem scanNamed_isSome_iff {α : Type} (getName : α → String) (xs : List α) (name : String) :
    (∃ m, scanNamed getName xs name = some m) ↔ ∃ m ∈ xs, getName m = name := by
  constructor
  · rintro ⟨m, hm⟩
    exact ⟨m, scanNamed_some_mem getName xs name m hm⟩
  · rintro ⟨m, hm, hn⟩
    cases h : scanNamed getName xs name with
    | some x => exact ⟨x, rfl⟩
    | none =>
      rw [scanNamed_eq_none_iff] at h
      exact absurd hn (h m hm)

/-- With at most one entry of the name, the scan selects the first match. -/
theorem scanNamed_eq_find_of_unique {α : Type} (getName : α → String) (xs : List α)
    (name : String) (h : (xs.filter (fun m => decide (getName m = name))).length ≤ 1) :
    scanNamed getName xs name = xs.find? (fun m => decide (getName m = name)) := by
  rw [scanNamed_eq_find_reverse, ← List.filter_head?, ← List.filter_head?, List.filter_reverse]
  generalize xs.filter (fun m => decide (getName m = name)) = ys at h
  match ys, h with
  | [], _ => rfl
  | [_], _ => rfl
  | _ :: _ :: _, h => simp at h

/-! ## Every call takes one of the exit paths -/

/-- The run of `ProbeGRPC` is the run of one of its exit paths. -/
theorem exitPath_total (w : World) (target : String) (module : Module) :
    ExitPath w target module (ProbeGRPC w target module) := by
  cases hd : w.DialContext target module.GRPC.InsecureSkipVerify with
  | error err =>
    have h := ExitPath.dialFailed err hd
    simpa [ProbeGRPC, hd] using h
  | ok conn =>
    cases hf : w.FileContainingSymbol conn module.GRPC.Service with
    | error err =>
      have h := ExitPath.fileFailed conn err hd hf
      simpa [ProbeGRPC, hd, hf] using h
    | ok fileDesc =>
      cases hs : w.ResolveService conn module.GRPC.Service with
      | error err =>
        cases hn : w.nilGetMethodsFaults with
        | true =>
          have h := ExitPath.nilService conn fileDesc err hd hf hs hn
          simpa [ProbeGRPC, hd, hf, hs, hn, resolved, GetMethods] using h
        | false =>
          have h := ExitPath.nilTolerated conn fileDesc err hd hf hs hn
          simpa [ProbeGRPC, hd, hf, hs, hn, resolved, GetMethods, scanNamed] using h
      | ok svc =>
        cases hm : scanNamed MethodDescriptor.name svc.methods module.GRPC.Method with
        | none =>
          have h := ExitPath.methodMissing conn fileDesc svc hd hf hs hm
          simpa [ProbeGRPC, hd, hf, hs, resolved, GetMethods, hm] using h
        | some methodDesc =>
          cases ht : scanNamed MessageDescriptor.name fileDesc.messageTypes
              module.GRPC.MessageType with
          | none =>
            have h := ExitPath.messageMissing conn fileDesc svc methodDesc hd hf hs hm ht
            simpa [ProbeGRPC, hd, hf, hs, resolved, GetMethods, hm, ht] using h
          | some messageDesc =>
            cases hi : w.InvokeRpc conn methodDesc (NewMessage messageDesc) with
            | error err =>
              have h := ExitPath.invokeFailed conn fileDesc svc methodDesc messageDesc err
                hd hf hs hm ht hi
              simpa [ProbeGRPC, hd, hf, hs, resolved, GetMethods, hm, ht, hi] using h
            | ok s =>
              by_cases hr : module.GRPC.ResponseMessage ≠ "" ∧
                  module.GRPC.ResponseMessage ≠ s.String
              · have h := ExitPath.responseDiffers conn fileDesc svc methodDesc messageDesc s
                  hd hf hs hm ht hi hr
                simp only [ProbeGRPC, hd, hf, hs, resolved, GetMethods, hm, ht, hi, if_pos hr]
                exact h
              · have hr2 : module.GRPC.ResponseMessage = "" ∨
                    module.GRPC.ResponseMessage = s.String := by
                  by_cases h1 : module.GRPC.ResponseMessage = ""
                  · exact Or.inl h1
                  · right
                    by_contra h2
                    exact hr ⟨h1, h2⟩
                have h := ExitPath.success conn fileDesc svc methodDesc messageDesc s
                  hd hf hs hm ht hi hr2
                simp only [ProbeGRPC, hd, hf, hs, resolved, GetMethods, hm, ht, hi, if_neg hr]
                exact h

/-- The scan selects `m` exactly when `m` has the name and no entry behind it
has: `m` is the last entry with the name. -/
theorem scanNamed_eq_some_iff {α : Type} (getName : α → String) (xs : List α) (name : String)
    (m : α) :
    scanNamed getName xs name = some m ↔
      getName m = name ∧
        ∃ front back, xs = front ++ m :: back ∧ ∀ x ∈ back, getName x ≠ name := by
  rw [scanNamed_eq_find_reverse, List.find?_eq_some]
  constructor
  · rintro ⟨hp, as, bs, hrev, hall⟩
    refine ⟨by simpa using hp, bs.reverse, as.reverse, ?_, ?_⟩
    · have h := congrArg List.reverse hrev
      simpa using h
    · intro x hx
      have := hall x (by simpa using hx)
      simpa using this
  · rintro ⟨hp, front, back, hxs, hall⟩
    refine ⟨by simpa using hp, back.reverse, front.reverse, ?_, ?_⟩
    · rw [hxs]
      simp
    · intro x hx
      have := hall x (by simpa using hx)
      simpa using this

/-! ## What the exit paths do to the outcome and the trace -/

/-- A failed dial ends the probe with `false`. -/
theorem ProbeGRPC_dial_failed (w : World) (target : String) (module : Module) (err : String)
    (hd : w.DialContext target module.GRPC.InsecureSkipVerify = .error err) :
    (ProbeGRPC w target module).outcome = .returned false := by
  simp [ProbeGRPC, hd]

/-- A failed `FileContainingSymbol` ends the probe with `false` and without a
write to the gauge. -/
theorem ProbeGRPC_file_failed (w : World) (target : String) (module : Module)
    (conn : ClientConn) (err : String)
    (hd : w.DialContext target module.GRPC.InsecureSkipVerify = .ok conn)
    (hf : w.FileContainingSymbol conn module.GRPC.Service = .error err) :
    (ProbeGRPC w target module).outcome = .returned false ∧
      gaugeWritten (ProbeGRPC w target module).trace = false := by
  simp [ProbeGRPC, hd, hf, gaugeWritten, callsToFile, callsToDial]

/-- A failed `ResolveService` is not noticed: the probe goes on to
`svc.GetMethods()` with a nil `svc`, and ends the way that call ends. -/
theorem ProbeGRPC_resolve_failed (w : World) (target : String) (module : Module)
    (conn : ClientConn) (fileDesc : FileDescriptor) (err : String)
    (hd : w.DialContext target module.GRPC.InsecureSkipVerify = .ok conn)
    (hf : w.FileContainingSymbol conn module.GRPC.Service = .ok fileDesc)
    (hs : w.ResolveService conn module.GRPC.Service = .error err) :
    (ProbeGRPC w target module).outcome =
      if w.nilGetMethodsFaults then .panicked nilDereference else .returned false := by
  cases hn : w.nilGetMethodsFaults <;>
    simp [ProbeGRPC, hd, hf, hs, hn, resolved, GetMethods, scanNamed]

/-- A failed unary call leaves `ProbeGRPC` through `panic(err)`. -/
theorem ProbeGRPC_invoke_failed (w : World) (target : String) (module : Module)
    (conn : ClientConn) (fileDesc : FileDescriptor) (svc : ServiceDescriptor)
    (methodDesc : MethodDescriptor) (messageDesc : MessageDescriptor) (err : String)
    (hd : w.DialContext target module.GRPC.InsecureSkipVerify = .ok conn)
    (hf : w.FileContainingSymbol conn module.GRPC.Service = .ok fileDesc)
    (hs : w.ResolveService conn module.GRPC.Service = .ok svc)
    (hm : scanNamed MethodDescriptor.name svc.methods module.GRPC.Method = some methodDesc)
    (ht : scanNamed MessageDescriptor.name fileDesc.messageTypes module.GRPC.MessageType
            = some messageDesc)
    (hi : w.InvokeRpc conn methodDesc (NewMessage messageDesc) = .error err) :
    (ProbeGRPC w target module).outcome = .panicked err := by
  simp [ProbeGRPC, hd, hf, hs, resolved, GetMethods, hm, ht, hi]

/-- The run once the unary call has answered with `s`. -/
theorem ProbeGRPC_invoke_ok (w : World) (target : String) (module : Module)
    (conn : ClientConn) (fileDesc : FileDescriptor) (svc : ServiceDescriptor)
    (methodDesc : MethodDescriptor) (messageDesc : MessageDescriptor) (s : Response)
    (hd : w.DialContext target module.GRPC.InsecureSkipVerify = .ok conn)
    (hf : w.FileContainingSymbol conn module.GRPC.Service = .ok fileDesc)
    (hs : w.ResolveService conn module.GRPC.Service = .ok svc)
    (hm : scanNamed MethodDescriptor.name svc.methods module.GRPC.Method = some methodDesc)
    (ht : scanNamed MessageDescriptor.name fileDesc.messageTypes module.GRPC.MessageType
            = some messageDesc)
    (hi : w.InvokeRpc conn methodDesc (NewMessage messageDesc) = .ok s) :
    (ProbeGRPC w target module).outcome =
      .returned (decide (module.GRPC.ResponseMessage = "" ∨
        module.GRPC.ResponseMessage = s.String)) := by
  simp only [ProbeGRPC, hd, hf, hs, resolved, GetMethods, hm, ht, hi]
  by_cases h1 : module.GRPC.ResponseMessage = ""
  · simp [h1]
  · by_cases h2 : module.GRPC.ResponseMessage = s.String
    · have h3 : ¬ (module.GRPC.ResponseMessage ≠ "" ∧
          module.GRPC.ResponseMessage ≠ s.String) := fun h => h.2 h2
      rw [if_neg h3]
      simp [h2]
    · rw [if_pos ⟨h1, h2⟩]
      simp [h1, h2]

/-! ## The claims -/

/-- C1: `ProbeGRPC` returns true if and only if every step succeeds: the dial,
`FileContainingSymbol(Service)`, the service is resolved and its method list
holds a method named `Method`, the file's message types hold a message named
`MessageType`, the unary call made with the selected descriptors succeeds, and
`ResponseMessage` is empty or equals the textual form of the response; and
whenever it returns true the gauge `grpc_probe_success` has been set to 1. -/
theorem ProbeGRPC_true_iff_all_steps (w : World) (target : String) (module : Module) :
    ((ProbeGRPC w target module).outcome = .returned true ↔
      ∃ conn fileDesc svc methodDesc messageDesc s,
        w.DialContext target module.GRPC.InsecureSkipVerify = .ok conn ∧
        w.FileContainingSymbol conn module.GRPC.Service = .ok fileDesc ∧
        w.ResolveService conn module.GRPC.Service = .ok svc ∧
        (∃ m ∈ svc.methods, m.name = module.GRPC.Method) ∧
        (∃ d ∈ fileDesc.messageTypes, d.name = module.GRPC.MessageType) ∧
        scanNamed MethodDescriptor.name svc.methods module.GRPC.Method = some methodDesc ∧
        scanNamed MessageDescriptor.name fileDesc.messageTypes module.GRPC.MessageType
          = some messageDesc ∧
        w.InvokeRpc conn methodDesc (NewMessage messageDesc) = .ok s ∧
        (module.GRPC.ResponseMessage = "" ∨ module.GRPC.ResponseMessage = s.String)) ∧
    ((ProbeGRPC w target module).outcome = .returned true →
      Event.gaugeSet gaugeName 1 ∈ (ProbeGRPC w target module).trace ∧
      gaugeValue (ProbeGRPC w target module).trace = 1) := by
  have hp := exitPath_total w target module
  refine ⟨⟨fun h => ?_, ?_⟩, fun h => ?_⟩
  · generalize ProbeGRPC w target module = run at hp h
    cases hp with
    | success conn fileDesc svc methodDesc messageDesc s hd hf hs hm ht hi hr =>
      exact ⟨conn, fileDesc, svc, methodDesc, messageDesc, s, hd, hf, hs,
        ⟨methodDesc, scanNamed_some_mem _ _ _ _ hm⟩,
        ⟨messageDesc, scanNamed_some_mem _ _ _ _ ht⟩, hm, ht, hi, hr⟩
    | _ => simp at h
  · rintro ⟨conn, fileDesc, svc, methodDesc, messageDesc, s, hd, hf, hs, -, -, hm, ht, hi, hr⟩
    rw [ProbeGRPC_invoke_ok w target module conn fileDesc svc methodDesc messageDesc s
      hd hf hs hm ht hi]
    simp [hr]
  · generalize ProbeGRPC w target module = run at hp h
    cases hp with
    | success conn fileDesc svc methodDesc messageDesc s hd hf hs hm ht hi hr =>
      simp [gaugeValue, callsToInvoke, callsToResolve, callsToFile, callsToDial]
    | _ => simp at h

/-- C1, on the healthy target: the probe of `Check` returns true and the gauge
is 1. -/
theorem ProbeGRPC_true_iff_all_steps_witness :
    (ProbeGRPC healthyWorld "localhost:443" healthModule).outcome = .returned true ∧
    Event.gaugeSet gaugeName 1 ∈ (ProbeGRPC healthyWorld "localhost:443" healthModule).trace ∧
    gaugeValue (ProbeGRPC healthyWorld "localhost:443" healthModule).trace = 1 :=
  ⟨by decide,
   (ProbeGRPC_true_iff_all_steps healthyWorld "localhost:443" healthModule).2 (by decide)⟩

/-- C2: on the target that resolves everything and fails the unary call, every
step before the call succeeds, and `ProbeGRPC` does not return false: it leaves
through `panic(err)` with the error of the call. -/
theorem ProbeGRPC_panics_on_invoke_error :
    failingWorld.DialContext "localhost:443" false
      = .ok { target := "localhost:443", serial := 1 } ∧
    failingWorld.FileContainingSymbol { target := "localhost:443", serial := 1 }
      healthModule.GRPC.Service = .ok healthFile ∧
    failingWorld.ResolveService { target := "localhost:443", serial := 1 }
      healthModule.GRPC.Service = .ok healthService ∧
    scanNamed MethodDescriptor.name healthService.methods healthModule.GRPC.Method
      = some checkMethod ∧
    scanNamed MessageDescriptor.name healthFile.messageTypes healthModule.GRPC.MessageType
      = some healthCheckRequest ∧
    failingWorld.InvokeRpc { target := "localhost:443", serial := 1 } checkMethod
      (NewMessage healthCheckRequest) = .error "rpc error: code = Unavailable" ∧
    (ProbeGRPC failingWorld "localhost:443" healthModule).outcome
      = .panicked "rpc error: code = Unavailable" ∧
    (ProbeGRPC failingWorld "localhost:443" healthModule).outcome ≠ .returned false := by
  exact ⟨rfl, rfl, rfl, by decide, by decide, rfl, by decide, by decide⟩

/-- C3: on the healthy target with `Service` set to a symbol that is a message
type, `FileContainingSymbol` succeeds and `ResolveService` fails; `ProbeGRPC`
does not return false but leaves through the nil dereference of
`svc.GetMethods()`. -/
theorem ProbeGRPC_panics_on_resolve_error :
    healthyWorld.FileContainingSymbol { target := "localhost:443", serial := 1 }
      "grpc.health.v1.HealthCheckRequest" = .ok healthFile ∧
    healthyWorld.ResolveService { target := "localhost:443", serial := 1 }
      "grpc.health.v1.HealthCheckRequest" = .error "Service not found" ∧
    (ProbeGRPC healthyWorld "localhost:443"
      { GRPC := { healthModule.GRPC with Service := "grpc.health.v1.HealthCheckRequest" } }).outcome
      = .panicked nilDereference ∧
    (ProbeGRPC healthyWorld "localhost:443"
      { GRPC := { healthModule.GRPC with Service := "grpc.health.v1.HealthCheckRequest" } }).outcome
      ≠ .returned false := by
  exact ⟨rfl, rfl, by decide, by decide⟩

/-- C4 as stated fails: on the target with duplicated names the first method
named `Check` and the first message named `HealthCheckRequest` are not the
ones selected, and the unary call is made with the second of each. -/
theorem first_match_not_selected :
    twinService.methods.find? (fun m => decide (m.name = "Check")) = some checkMethod ∧
    scanNamed MethodDescriptor.name twinService.methods "Check" ≠ some checkMethod ∧
    twinFile.messageTypes.find? (fun d => decide (d.name = "HealthCheckRequest"))
      = some healthCheckRequest ∧
    scanNamed MessageDescriptor.name twinFile.messageTypes "HealthCheckRequest"
      ≠ some healthCheckRequest ∧
    Event.invokeRpc { target := "localhost:443", serial := 1 }
        { name := "Check", inputType := "ProbeRequest", outputType := "ProbeResponse" }
        (NewMessage { name := "HealthCheckRequest", fields := ["service", "zone"] })
      ∈ (ProbeGRPC twinWorld "localhost:443" healthModule).trace := by
  exact ⟨by decide, by decide, by decide, by decide, by decide⟩

/-- C4, amended: in both name lookups the descriptor selected is the last
entry of the sequence whose name equals the requested name (an entry with the
name behind which no entry has the name), for every sequence; when the
sequence holds at most one entry with the name, that is the first such
entry. -/
theorem last_match_selected (methods : List MethodDescriptor)
    (messageTypes : List MessageDescriptor) (name : String) :
    (∀ methodDesc, scanNamed MethodDescriptor.name methods name = some methodDesc ↔
      methodDesc.name = name ∧
        ∃ front back, methods = front ++ methodDesc :: back ∧ ∀ m ∈ back, m.name ≠ name) ∧
    (∀ messageDesc, scanNamed MessageDescriptor.name messageTypes name = some messageDesc ↔
      messageDesc.name = name ∧
        ∃ front back, messageTypes = front ++ messageDesc :: back ∧
          ∀ m ∈ back, m.name ≠ name) ∧
    ((methods.filter (fun m => decide (m.name = name))).length ≤ 1 →
      scanNamed MethodDescriptor.name methods name
        = methods.find? (fun m => decide (m.name = name))) ∧
    ((messageTypes.filter (fun m => decide (m.name = name))).length ≤ 1 →
      scanNamed MessageDescriptor.name messageTypes name
        = messageTypes.find? (fun m => decide (m.name = name))) :=
  ⟨fun methodDesc => scanNamed_eq_some_iff MethodDescriptor.name methods name methodDesc,
   fun messageDesc => scanNamed_eq_some_iff MessageDescriptor.name messageTypes name messageDesc,
   scanNamed_eq_find_of_unique MethodDescriptor.name methods name,
   scanNamed_eq_find_of_unique MessageDescriptor.name messageTypes name⟩

/-- C4, amended, on the duplicated method list and the health file: the second
`Check` is selected, and the only `HealthCheckResponse` is the first one. -/
theorem last_match_selected_witness :
    scanNamed MethodDescriptor.name twinService.methods "Check"
      = some { name := "Check", inputType := "ProbeRequest", outputType := "ProbeResponse" } ∧
    scanNamed MessageDescriptor.name healthFile.messageTypes "HealthCheckResponse"
      = healthFile.messageTypes.find? (fun m => decide (m.name = "HealthCheckResponse")) :=
  ⟨((last_match_selected twinService.methods healthFile.messageTypes "Check").1 _).2
      ⟨rfl, [checkMethod], [], rfl, by simp⟩,
   (last_match_selected twinService.methods healthFile.messageTypes
      "HealthCheckResponse").2.2.2 (by decide)⟩

/-- C5: the gauge is written only when `ProbeGRPC` returns true: a trace that
writes the gauge belongs to a run that returned true, and on every run that
did not return true the trace holds no `Set` and the gauge keeps its initial
value zero. -/
theorem gauge_written_only_on_true (w : World) (target : String) (module : Module) :
    (gaugeWritten (ProbeGRPC w target module).trace = true →
      (ProbeGRPC w target module).outcome = .returned true) ∧
    ((ProbeGRPC w target module).outcome ≠ .returned true →
      (∀ name value, Event.gaugeSet name value ∉ (ProbeGRPC w target module).trace) ∧
      gaugeValue (ProbeGRPC w target module).trace = 0) := by
  have hp := exitPath_total w target module
  generalize ProbeGRPC w target module = run at hp
  cases hp <;>
    simp [gaugeWritten, gaugeValue, callsToInvoke, callsToResolve, callsToFile, callsToDial]

/-- C5, on the healthy target probed for a method it does not have: the run
does not return true and the gauge is untouched. -/
theorem gauge_written_only_on_true_witness :
    (∀ name value, Event.gaugeSet name value ∉
      (ProbeGRPC healthyWorld "localhost:443"
        { GRPC := { healthModule.GRPC with Method := "Ping" } }).trace) ∧
    gaugeValue (ProbeGRPC healthyWorld "localhost:443"
        { GRPC := { healthModule.GRPC with Method := "Ping" } }).trace = 0 :=
  (gauge_written_only_on_true healthyWorld "localhost:443"
    { GRPC := { healthModule.GRPC with Method := "Ping" } }).2 (by decide)

/-- C6: once the unary call has succeeded with response `s`, an empty
`ResponseMessage` makes `ProbeGRPC` return true whatever `s` is, and a
non-empty `ResponseMessage` makes it return true exactly when it equals the
textual form of `s`, and false otherwise. -/
theorem response_check (w : World) (target : String) (module : Module)
    (conn : ClientConn) (fileDesc : FileDescriptor) (svc : ServiceDescriptor)
    (methodDesc : MethodDescriptor) (messageDesc : MessageDescriptor) (s : Response)
    (hd : w.DialContext target module.GRPC.InsecureSkipVerify = .ok conn)
    (hf : w.FileContainingSymbol conn module.GRPC.Service = .ok fileDesc)
    (hs : w.ResolveService conn module.GRPC.Service = .ok svc)
    (hm : scanNamed MethodDescriptor.name svc.methods module.GRPC.Method = some methodDesc)
    (ht : scanNamed MessageDescriptor.name fileDesc.messageTypes module.GRPC.MessageType
            = some messageDesc)
    (hi : w.InvokeRpc conn methodDesc (NewMessage messageDesc) = .ok s) :
    (module.GRPC.ResponseMessage = "" →
      (ProbeGRPC w target module).outcome = .returned true) ∧
    (module.GRPC.ResponseMessage ≠ "" →
      ((ProbeGRPC w target module).outcome = .returned true ↔
        module.GRPC.ResponseMessage = s.String) ∧
      (module.GRPC.ResponseMessage ≠ s.String →
        (ProbeGRPC w target module).outcome = .returned false)) := by
  rw [ProbeGRPC_invoke_ok w target module conn fileDesc svc methodDesc messageDesc s
    hd hf hs hm ht hi]
  refine ⟨fun h => by simp [h], fun h => ⟨?_, fun h2 => by simp [h, h2]⟩⟩
  simp [h]

/-- C6, on the healthy target: with the expected text `status:SERVING` the
probe returns true, as the response has that textual form. -/
theorem response_check_witness :
    (ProbeGRPC healthyWorld "localhost:443"
        { GRPC := { healthModule.GRPC with ResponseMessage := "status:SERVING" } }).outcome
      = .returned true :=
  ((response_check healthyWorld "localhost:443"
      { GRPC := { healthModule.GRPC with ResponseMessage := "status:SERVING" } }
      { target := "localhost:443", serial := 1 } healthFile healthService checkMethod
      healthCheckRequest { String := "status:SERVING" } rfl rfl rfl (by decide) (by decide)
      rfl).2 (by decide)).1.2 rfl

/-- C7: for every resolved service whose method list holds no method named
`Method` (the empty list included), `ProbeGRPC` returns false, without a
panic, and goes no further: no request message is built and no unary call is
made. -/
theorem method_missing_returns_false (w : World) (target : String) (module : Module)
    (conn : ClientConn) (fileDesc : FileDescriptor) (svc : ServiceDescriptor)
    (hd : w.DialContext target module.GRPC.InsecureSkipVerify = .ok conn)
    (hf : w.FileContainingSymbol conn module.GRPC.Service = .ok fileDesc)
    (hs : w.ResolveService conn module.GRPC.Service = .ok svc)
    (hno : ∀ m ∈ svc.methods, m.name ≠ module.GRPC.Method) :
    (ProbeGRPC w target module).outcome = .returned false ∧
    messageBuilt (ProbeGRPC w target module).trace = false ∧
    invoked (ProbeGRPC w target module).trace = false := by
  have hm : scanNamed MethodDescriptor.name svc.methods module.GRPC.Method = none :=
    (scanNamed_eq_none_iff _ _ _).2 hno
  simp [ProbeGRPC, hd, hf, hs, resolved, GetMethods, hm, messageBuilt, invoked,
    callsToResolve, callsToFile, callsToDial]

/-- C7, on the healthy target probed for `Ping`: false, nothing built, nothing
invoked. -/
theorem method_missing_returns_false_witness :
    (ProbeGRPC healthyWorld "localhost:443"
        { GRPC := { healthModule.GRPC with Method := "Ping" } }).outcome = .returned false ∧
    messageBuilt (ProbeGRPC healthyWorld "localhost:443"
        { GRPC := { healthModule.GRPC with Method := "Ping" } }).trace = false ∧
    invoked (ProbeGRPC healthyWorld "localhost:443"
        { GRPC := { healthModule.GRPC with Method := "Ping" } }).trace = false :=
  method_missing_returns_false healthyWorld "localhost:443"
    { GRPC := { healthModule.GRPC with Method := "Ping" } }
    { target := "localhost:443", serial := 1 } healthFile healthService rfl rfl rfl
    (by decide)

/-- With the service resolved and no message named `MessageType` in the
resolved file, `ProbeGRPC` returns false and makes no unary call, whether the
method lookup finds `Method` or not. -/
theorem message_missing_of_resolved (w : World) (target : String) (module : Module)
    (conn : ClientConn) (fileDesc : FileDescriptor) (svc : ServiceDescriptor)
    (hd : w.DialContext target module.GRPC.InsecureSkipVerify = .ok conn)
    (hf : w.FileContainingSymbol conn module.GRPC.Service = .ok fileDesc)
    (hs : w.ResolveService conn module.GRPC.Service = .ok svc)
    (hno : ∀ d ∈ fileDesc.messageTypes, d.name ≠ module.GRPC.MessageType) :
    (ProbeGRPC w target module).outcome = .returned false ∧
    invoked (ProbeGRPC w target module).trace = false := by
  have ht : scanNamed MessageDescriptor.name fileDesc.messageTypes module.GRPC.MessageType
      = none := (scanNamed_eq_none_iff _ _ _).2 hno
  cases hm : scanNamed MethodDescriptor.name svc.methods module.GRPC.Method <;>
    simp [ProbeGRPC, hd, hf, hs, resolved, GetMethods, hm, ht, invoked,
      callsToResolve, callsToFile, callsToDial]

/-- With no message named `MessageType` in the resolved file, `ProbeGRPC` makes
no unary call, whatever `ResolveService` answers. -/
theorem message_missing_never_invokes (w : World) (target : String) (module : Module)
    (conn : ClientConn) (fileDesc : FileDescriptor)
    (hd : w.DialContext target module.GRPC.InsecureSkipVerify = .ok conn)
    (hf : w.FileContainingSymbol conn module.GRPC.Service = .ok fileDesc)
    (hno : ∀ d ∈ fileDesc.messageTypes, d.name ≠ module.GRPC.MessageType) :
    invoked (ProbeGRPC w target module).trace = false := by
  have ht : scanNamed MessageDescriptor.name fileDesc.messageTypes module.GRPC.MessageType
      = none := (scanNamed_eq_none_iff _ _ _).2 hno
  have hp := exitPath_total w target module
  generalize ProbeGRPC w target module = run at hp
  cases hp <;>
    simp_all [invoked, callsToInvoke, callsToResolve, callsToFile, callsToDial]

/-- C8: on the healthy target with `Service` set to a symbol that is a message
type and `MessageType` set to a name the file does not declare, the file is
resolved and holds no message of that name, and `ResolveService` fails;
`ProbeGRPC` makes no unary call, but it does not return false: it leaves
through the nil dereference of `svc.GetMethods()` on line 66, before the
message lookup is reached. -/
theorem ProbeGRPC_panics_before_message_lookup :
    healthyWorld.DialContext "localhost:443" false
      = .ok { target := "localhost:443", serial := 1 } ∧
    healthyWorld.FileContainingSymbol { target := "localhost:443", serial := 1 }
      "grpc.health.v1.HealthCheckRequest" = .ok healthFile ∧
    (∀ d ∈ healthFile.messageTypes, d.name ≠ "PingRequest") ∧
    healthyWorld.ResolveService { target := "localhost:443", serial := 1 }
      "grpc.health.v1.HealthCheckRequest" = .error "Service not found" ∧
    (ProbeGRPC healthyWorld "localhost:443"
      { GRPC := { healthModule.GRPC with Service := "grpc.health.v1.HealthCheckRequest",
                                         MessageType := "PingRequest" } }).outcome
      = .panicked nilDereference ∧
    (ProbeGRPC healthyWorld "localhost:443"
      { GRPC := { healthModule.GRPC with Service := "grpc.health.v1.HealthCheckRequest",
                                         MessageType := "PingRequest" } }).outcome
      ≠ .returned false ∧
    invoked (ProbeGRPC healthyWorld "localhost:443"
      { GRPC := { healthModule.GRPC with Service := "grpc.health.v1.HealthCheckRequest",
                                         MessageType := "PingRequest" } }).trace = false := by
  exact ⟨rfl, rfl, by decide, rfl, by decide, by decide, by decide⟩

/-- C9 as stated fails: on the healthy target the dial succeeds, the probe
returns true, and when it finishes the connection is still open: the trace
holds no `Close`. -/
theorem connection_left_open :
    healthyWorld.DialContext "localhost:443" healthModule.GRPC.InsecureSkipVerify
      = .ok { target := "localhost:443", serial := 1 } ∧
    (ProbeGRPC healthyWorld "localhost:443" healthModule).outcome = .returned true ∧
    connOpen { target := "localhost:443", serial := 1 }
      (ProbeGRPC healthyWorld "localhost:443" healthModule).trace = true ∧
    Event.connClose { target := "localhost:443", serial := 1 }
      ∉ (ProbeGRPC healthyWorld "localhost:443" healthModule).trace := by
  exact ⟨rfl, by decide, by decide, by decide⟩

/-- C9, amended: `ProbeGRPC` releases the connection on no exit path: for
every run in which the dial succeeds, the trace holds no `Close` and the
connection is still open when `ProbeGRPC` finishes, however it ends. -/
theorem connection_never_closed (w : World) (target : String) (module : Module)
    (conn : ClientConn)
    (hd : w.DialContext target module.GRPC.InsecureSkipVerify = .ok conn) :
    (∀ c, Event.connClose c ∉ (ProbeGRPC w target module).trace) ∧
    connOpen conn (ProbeGRPC w target module).trace = true := by
  have hp := exitPath_total w target module
  generalize ProbeGRPC w target module = run at hp
  cases hp <;>
    simp_all [connOpen, callsToInvoke, callsToResolve, callsToFile, callsToDial]

/-- C9, amended, on the target that fails the unary call: the connection is
open when the probe leaves. -/
theorem connection_never_closed_witness :
    (∀ c, Event.connClose c ∉ (ProbeGRPC failingWorld "localhost:443" healthModule).trace) ∧
    connOpen { target := "localhost:443", serial := 1 }
      (ProbeGRPC failingWorld "localhost:443" healthModule).trace = true :=
  connection_never_closed failingWorld "localhost:443" healthModule
    { target := "localhost:443", serial := 1 } rfl

/-- C10: whenever `ProbeGRPC` makes the unary call, the method descriptor it
passes is a member of the resolved service's method list and is named
`Method`, and the request message is built from a descriptor that is a member
of the resolved file's message types and is named `MessageType`. -/
theorem invoked_descriptors_resolved (w : World) (target : String) (module : Module)
    (conn : ClientConn) (methodDesc : MethodDescriptor) (message : DynamicMessage)
    (hinv : Event.invokeRpc conn methodDesc message ∈ (ProbeGRPC w target module).trace) :
    ∃ svc fileDesc messageDesc,
      w.DialContext target module.GRPC.InsecureSkipVerify = .ok conn ∧
      w.FileContainingSymbol conn module.GRPC.Service = .ok fileDesc ∧
      w.ResolveService conn module.GRPC.Service = .ok svc ∧
      methodDesc ∈ svc.methods ∧ methodDesc.name = module.GRPC.Method ∧
      messageDesc ∈ fileDesc.messageTypes ∧ messageDesc.name = module.GRPC.MessageType ∧
      message = NewMessage messageDesc := by
  have hp := exitPath_total w target module
  generalize ProbeGRPC w target module = run at hp hinv
  have key : ∀ (c : ClientConn) (fd : FileDescriptor) (sv : ServiceDescriptor)
      (md : MethodDescriptor) (td : MessageDescriptor),
      w.DialContext target module.GRPC.InsecureSkipVerify = .ok c →
      w.FileContainingSymbol c module.GRPC.Service = .ok fd →
      w.ResolveService c module.GRPC.Service = .ok sv →
      scanNamed MethodDescriptor.name sv.methods module.GRPC.Method = some md →
      scanNamed MessageDescriptor.name fd.messageTypes module.GRPC.MessageType = some td →
      conn = c ∧ methodDesc = md ∧ message = NewMessage td →
      ∃ svc fileDesc messageDesc,
        w.DialContext target module.GRPC.InsecureSkipVerify = .ok conn ∧
        w.FileContainingSymbol conn module.GRPC.Service = .ok fileDesc ∧
        w.ResolveService conn module.GRPC.Service = .ok svc ∧
        methodDesc ∈ svc.methods ∧ methodDesc.name = module.GRPC.Method ∧
        messageDesc ∈ fileDesc.messageTypes ∧ messageDesc.name = module.GRPC.MessageType ∧
        message = NewMessage messageDesc := by
    rintro c fd sv md td hd hf hs hm ht ⟨rfl, rfl, rfl⟩
    have h1 := scanNamed_some_mem _ _ _ _ hm
    have h2 := scanNamed_some_mem _ _ _ _ ht
    exact ⟨sv, fd, td, hd, hf, hs, h1.1, h1.2, h2.1, h2.2, rfl⟩
  cases hp with
  | invokeFailed c fd sv md td err hd hf hs hm ht hi =>
    refine key c fd sv md td hd hf hs hm ht ?_
    simpa [callsToInvoke, callsToResolve, callsToFile, callsToDial] using hinv
  | responseDiffers c fd sv md td s hd hf hs hm ht hi hr =>
    refine key c fd sv md td hd hf hs hm ht ?_
    simpa [callsToInvoke, callsToResolve, callsToFile, callsToDial] using hinv
  | success c fd sv md td s hd hf hs hm ht hi hr =>
    refine key c fd sv md td hd hf hs hm ht ?_
    simpa [callsToInvoke, callsToResolve, callsToFile, callsToDial] using hinv
  | _ => simp [callsToResolve, callsToFile, callsToDial] at hinv

/-- C10, on the healthy target: the call is made with `Check` of the health
service and a message of the declared type `HealthCheckRequest`. -/
theorem invoked_descriptors_resolved_witness :
    ∃ svc fileDesc messageDesc,
      healthyWorld.DialContext "localhost:443" healthModule.GRPC.InsecureSkipVerify
        = .ok { target := "localhost:443", serial := 1 } ∧
      healthyWorld.FileContainingSymbol { target := "localhost:443", serial := 1 }
        healthModule.GRPC.Service = .ok fileDesc ∧
      healthyWorld.ResolveService { target := "localhost:443", serial := 1 }
        healthModule.GRPC.Service = .ok svc ∧
      checkMethod ∈ svc.methods ∧ checkMethod.name = healthModule.GRPC.Method ∧
      messageDesc ∈ fileDesc.messageTypes ∧
      messageDesc.name = healthModule.GRPC.MessageType ∧
      NewMessage healthCheckRequest = NewMessage messageDesc :=
  invoked_descriptors_resolved healthyWorld "localhost:443" healthModule
    { target := "localhost:443", serial := 1 } checkMethod (NewMessage healthCheckRequest)
    (by decide)

end Prober
